import Mathlib

/-!
Verification development for the AI trading bot repository.

The Python sources are shallowly embedded over ℚ.  Outputs of the external
`talib` library (RSI value, MACD triple, Bollinger bands, moving averages)
are passed to the embedded `calculate` functions as explicit arguments,
exactly at the point where the Python code reads them; everything the
repository itself computes (guards, classification branches, scoring,
state updates) is translated literally from the source.
-/

namespace AITradingBot

/-- Signal kind of an indicator reading (`'BUY' | 'SELL' | 'NEUTRAL'` strings
in `indicator_engine.py`). -/
inductive Signal where
  | BUY
  | SELL
  | NEUTRAL
deriving DecidableEq, Repr

/-- One OHLCV candle (a row of the pandas DataFrame consumed by the
indicators).  Prices and volume are rationals, the timestamp an integer. -/
structure Candle where
  timestamp : Int
  openPrice : ℚ
  high : ℚ
  low : ℚ
  close : ℚ
  volume : ℚ
deriving DecidableEq, Repr

/-- `IndicatorResult` dataclass from `indicator_engine.py`. -/
structure IndicatorResult where
  name : String
  value : ℚ
  signal : Signal
  strength : ℚ
  timeframe : String
  timestamp : Int
deriving DecidableEq, Repr

/-- `int(df.iloc[-1]['timestamp']) if not df.empty else 0`. -/
def lastTimestamp (candles : List Candle) : Int :=
  match candles.getLast? with
  | some c => c.timestamp
  | none => 0

/-- `df.iloc[-1]['close']` (0 on an empty frame, mirroring the guarded
`if not df.empty else 0` uses). -/
def lastClose (candles : List Candle) : ℚ :=
  match candles.getLast? with
  | some c => c.close
  | none => 0

/-- `df.iloc[-2]['close']` (total: 0 when fewer than two candles). -/
def secondLastClose (candles : List Candle) : ℚ :=
  match candles.dropLast.getLast? with
  | some c => c.close
  | none => 0

/-- `df.iloc[-1]['volume']`. -/
def lastVolume (candles : List Candle) : ℚ :=
  match candles.getLast? with
  | some c => c.volume
  | none => 0

/-- `RSIIndicator.calculate` (indicator_engine.py lines 52-88).  The value
`talib.RSI(...)[-1]` is the argument `currentRsi`. -/
def rsiCalculate (period : ℕ) (tf : String) (candles : List Candle)
    (currentRsi : ℚ) : IndicatorResult :=
  if candles.length < period then
    ⟨"RSI_" ++ toString period, 50, .NEUTRAL, 0, tf, lastTimestamp candles⟩
  else if currentRsi ≤ 30 then
    ⟨"RSI_" ++ toString period, currentRsi, .BUY, min 1 ((30 - currentRsi) / 10),
      tf, lastTimestamp candles⟩
  else if 70 ≤ currentRsi then
    ⟨"RSI_" ++ toString period, currentRsi, .SELL, min 1 ((currentRsi - 70) / 10),
      tf, lastTimestamp candles⟩
  else
    ⟨"RSI_" ++ toString period, currentRsi, .NEUTRAL, 1/10, tf, lastTimestamp candles⟩

/-- `MACDIndicator.calculate` (indicator_engine.py lines 99-143).  The
arguments `macd`, `sig`, `hist`, `prevHist` are `macd[-1]`, `signal[-1]`,
`histogram[-1]`, `histogram[-2]` of the `talib.MACD` output. -/
def macdCalculate (fast slow signalPeriod : ℕ) (tf : String) (candles : List Candle)
    (macd sig hist prevHist : ℚ) : IndicatorResult :=
  let name := "MACD_" ++ toString fast ++ "_" ++ toString slow ++ "_" ++ toString signalPeriod
  let minPeriods := max slow signalPeriod + 10
  if candles.length < minPeriods then
    ⟨name, 0, .NEUTRAL, 0, tf, lastTimestamp candles⟩
  else if sig < macd ∧ prevHist ≤ 0 ∧ 0 < hist then
    ⟨name, hist, .BUY, 4/5, tf, lastTimestamp candles⟩
  else if macd < sig ∧ 0 ≤ prevHist ∧ hist < 0 then
    ⟨name, hist, .SELL, 4/5, tf, lastTimestamp candles⟩
  else if 0 < hist ∧ prevHist < hist then
    ⟨name, hist, .BUY, 1/2, tf, lastTimestamp candles⟩
  else if hist < 0 ∧ hist < prevHist then
    ⟨name, hist, .SELL, 1/2, tf, lastTimestamp candles⟩
  else
    ⟨name, hist, .NEUTRAL, 1/10, tf, lastTimestamp candles⟩

/-- `BollingerBandsIndicator.calculate` (indicator_engine.py lines 153-193).
`upper` and `lower` are `talib.BBANDS(...)` last values. -/
def bbCalculate (period : ℕ) (stdDev : ℚ) (tf : String) (candles : List Candle)
    (upper lower : ℚ) : IndicatorResult :=
  let name := "BB_" ++ toString period ++ "_" ++ toString stdDev
  if candles.length < period then
    ⟨name, 50, .NEUTRAL, 0, tf, lastTimestamp candles⟩
  else
    let currentPrice := lastClose candles
    let bbPosition := (currentPrice - lower) / (upper - lower) * 100
    if bbPosition ≤ 10 then
      ⟨name, bbPosition, .BUY, min 1 ((10 - bbPosition) / 10), tf, lastTimestamp candles⟩
    else if 90 ≤ bbPosition then
      ⟨name, bbPosition, .SELL, min 1 ((bbPosition - 90) / 10), tf, lastTimestamp candles⟩
    else
      ⟨name, bbPosition, .NEUTRAL, 1/10, tf, lastTimestamp candles⟩

/-- `df['volume'].rolling(window=period).mean().iloc[-1]`: mean of the last
`period` volumes. -/
def rollingMeanVolume (period : ℕ) (candles : List Candle) : ℚ :=
  (((candles.map Candle.volume).drop (candles.length - period)).sum) / (period : ℚ)

/-- `VolumeIndicator.calculate` (indicator_engine.py lines 202-238). -/
def volumeCalculate (period : ℕ) (tf : String) (candles : List Candle) :
    IndicatorResult :=
  let name := "VOLUME_" ++ toString period
  if candles.length < period then
    ⟨name, 1, .NEUTRAL, 0, tf, lastTimestamp candles⟩
  else
    let avgVolume := rollingMeanVolume period candles
    let currentVolume := lastVolume candles
    let volumeQuot := currentVolume / avgVolume
    let priceChange := (lastClose candles - secondLastClose candles) / secondLastClose candles
    if 2 < volumeQuot ∧ 1/100 < priceChange then
      ⟨name, volumeQuot, .BUY, min 1 (volumeQuot / 3), tf, lastTimestamp candles⟩
    else if 2 < volumeQuot ∧ priceChange < -(1/100) then
      ⟨name, volumeQuot, .SELL, min 1 (volumeQuot / 3), tf, lastTimestamp candles⟩
    else if volumeQuot < 1/2 then
      ⟨name, volumeQuot, .NEUTRAL, 1/5, tf, lastTimestamp candles⟩
    else
      ⟨name, volumeQuot, .NEUTRAL, 1/10, tf, lastTimestamp candles⟩

/-- `MovingAverageIndicator.calculate` (indicator_engine.py lines 248-295).
`currentMa` and `prevMa` are `ma_values[-1]` and `ma_values[-2]` of the
`talib` SMA/EMA/WMA output. -/
def maCalculate (period : ℕ) (maType tf : String) (candles : List Candle)
    (currentMa prevMa : ℚ) : IndicatorResult :=
  let name := maType ++ "_" ++ toString period
  if candles.length < period then
    ⟨name, lastClose candles, .NEUTRAL, 0, tf, lastTimestamp candles⟩
  else
    let currentPrice := lastClose candles
    let priceVsMa := (currentPrice - currentMa) / currentMa * 100
    let maSlope := (currentMa - prevMa) / prevMa * 100
    if currentMa < currentPrice ∧ 1/10 < maSlope then
      ⟨name, currentMa, .BUY, min 1 (|priceVsMa| / 2 + |maSlope|), tf, lastTimestamp candles⟩
    else if currentPrice < currentMa ∧ maSlope < -(1/10) then
      ⟨name, currentMa, .SELL, min 1 (|priceVsMa| / 2 + |maSlope|), tf, lastTimestamp candles⟩
    else
      ⟨name, currentMa, .NEUTRAL, 1/10, tf, lastTimestamp candles⟩

/-! ### Signal generator (signal_generator.py) -/

/-- Trade direction of a generated signal (`'LONG' | 'SHORT'`). -/
inductive Direction where
  | LONG
  | SHORT
deriving DecidableEq, Repr

/-- `config.MIN_SIGNAL_SCORE` (config.py line 42). -/
def MIN_SIGNAL_SCORE : ℤ := 70

/-- Python `int(...)` applied to a float/rational: truncation toward zero. -/
def pyInt (q : ℚ) : ℤ :=
  if 0 ≤ q then ⌊q⌋ else -⌊-q⌋

/-- The `timeframe_weights` dict of `_calculate_base_score`
(signal_generator.py lines 237-244); unlisted timeframes default to 0.1. -/
def timeframeWeight (tf : String) : ℚ :=
  if tf = "1" then 3/20
  else if tf = "3" then 3/20
  else if tf = "5" then 1/5
  else if tf = "15" then 1/4
  else if tf = "30" then 3/20
  else if tf = "60" then 1/10
  else 1/10

/-- The accumulation loop of `_calculate_base_score`: returns
(buy_score, sell_score, total_weight). -/
def baseScoreAcc (indicators : List IndicatorResult) : ℚ × ℚ × ℚ :=
  indicators.foldl
    (fun acc ind =>
      let w := timeframeWeight ind.timeframe
      let buy := if ind.signal = .BUY then acc.1 + ind.strength * w * 100 else acc.1
      let sell := if ind.signal = .SELL then acc.2.1 + ind.strength * w * 100 else acc.2.1
      (buy, sell, acc.2.2 + w))
    (0, 0, 0)

/-- `SignalGenerator._calculate_base_score` (signal_generator.py lines 231-266). -/
def calculateBaseScore (indicators : List IndicatorResult) : ℚ :=
  if indicators = [] then 0
  else
    let acc := baseScoreAcc indicators
    let buyScore := if 0 < acc.2.2 then acc.1 / acc.2.2 else acc.1
    let sellScore := if 0 < acc.2.2 then acc.2.1 / acc.2.2 else acc.2.1
    max buyScore sellScore

/-- Sum of strengths over the BUY readings
(`sum(ind.strength for ind in indicators if ind.signal == 'BUY')`). -/
def buyStrengthSum (indicators : List IndicatorResult) : ℚ :=
  ((indicators.filter (fun i => i.signal = .BUY)).map IndicatorResult.strength).sum

/-- Sum of strengths over the SELL readings. -/
def sellStrengthSum (indicators : List IndicatorResult) : ℚ :=
  ((indicators.filter (fun i => i.signal = .SELL)).map IndicatorResult.strength).sum

/-- `SignalGenerator._determine_direction` (signal_generator.py lines 268-281);
`min_diff = 1.0`. -/
def determineDirection (indicators : List IndicatorResult) : Option Direction :=
  let buyStrength := buyStrengthSum indicators
  let sellStrength := sellStrengthSum indicators
  if 1 < buyStrength - sellStrength then some .LONG
  else if 1 < sellStrength - buyStrength then some .SHORT
  else none

/-- `SignalGenerator._get_btc_correlation_factor` (signal_generator.py
lines 306-310): a TODO stub that always returns the default 1.0 without
consulting the indicator engine. -/
def getBtcCorrelationFactor : ℚ := 1

/-- `config.BTC_DOMINANCE_WEIGHTS` (config.py lines 46-52). -/
def BTC_DOMINANCE_STRONG_BULL : ℚ := 2
/-- Bull weight 1.5. -/
def BTC_DOMINANCE_BULL : ℚ := 3/2
/-- Sideways weight 1.0. -/
def BTC_DOMINANCE_SIDEWAYS : ℚ := 1
/-- Bear weight 0.7. -/
def BTC_DOMINANCE_BEAR : ℚ := 7/10
/-- Strong-bear weight 0.3. -/
def BTC_DOMINANCE_STRONG_BEAR : ℚ := 3/10

/-- `IndicatorEngine.calculate_btc_dominance_factor` (indicator_engine.py
lines 383-420).  The argument is `get_indicators('BTCUSDT', '15')`, which is
`none` when the symbol has no cached results. -/
def calculateBtcDominanceFactor (btcIndicators : Option (List IndicatorResult)) : ℚ :=
  match btcIndicators with
  | none => 1
  | some inds =>
    if inds = [] then 1
    else
      let totalStrength := inds.foldl
        (fun acc ind =>
          if ind.signal = .BUY then acc + ind.strength
          else if ind.signal = .SELL then acc - ind.strength
          else acc) 0
      let count : ℚ := inds.length
      if count = 0 then 1
      else
        let avgStrength := totalStrength / count
        if 3/5 < avgStrength then BTC_DOMINANCE_STRONG_BULL
        else if 3/10 < avgStrength then BTC_DOMINANCE_BULL
        else if avgStrength < -(3/5) then BTC_DOMINANCE_STRONG_BEAR
        else if avgStrength < -(3/10) then BTC_DOMINANCE_BEAR
        else BTC_DOMINANCE_SIDEWAYS

/-- The decision core of a `TradingSignal`: symbol, direction and final
score.  The detailed plan fields (entry zones, stops, sizing, narrative)
are built only after this decision and are not the object of any claim. -/
structure TradingSignalCore where
  symbol : String
  direction : Direction
  score : ℤ
deriving DecidableEq, Repr

/-- The final-score computation of `generate_signal` steps 3-4
(signal_generator.py lines 199-206): the BTC factor comes from the stub
`_get_btc_correlation_factor` for every non-BTC symbol, then
`int((base_score + pattern_bonus) * btc_factor)` clamped to [0, 100]. -/
def finalScoreOf (symbol : String) (indicators : List IndicatorResult)
    (patternBonus : ℚ) : ℤ :=
  let baseScore := calculateBaseScore indicators
  let btcFactor := if symbol = "BTCUSDT" then 1 else getBtcCorrelationFactor
  max 0 (min 100 (pyInt ((baseScore + patternBonus) * btcFactor)))

/-- `SignalGenerator.generate_signal` decision pipeline (signal_generator.py
lines 183-229): empty readings → None; score below `MIN_SIGNAL_SCORE` →
None; no direction → None; otherwise a signal with the final score.
`patternBonus` is the result of `_analyze_patterns` (0 when no market data
is supplied). -/
def generateSignal (symbol : String) (indicators : List IndicatorResult)
    (patternBonus : ℚ) : Option TradingSignalCore :=
  if indicators = [] then none
  else
    let finalScore := finalScoreOf symbol indicators patternBonus
    if finalScore < MIN_SIGNAL_SCORE then none
    else
      match determineDirection indicators with
      | none => none
      | some d => some ⟨symbol, d, finalScore⟩

/-! ### Position manager (position_manager.py)

Times are rationals measured in minutes, so `timedelta(minutes=k)`
becomes the constant `k`. -/

/-- Position side (`"Buy" | "Sell"`). -/
inductive Side where
  | Buy
  | Sell
deriving DecidableEq, Repr

/-- `config.TRAILING_STOP_DISTANCE` (config.py line 115). -/
def TRAILING_STOP_DISTANCE : ℚ := 3/200

/-- `config.TRAILING_STOP_ACTIVATION` (config.py line 114). -/
def TRAILING_STOP_ACTIVATION : ℚ := 1/50

/-- `config.DEFAULT_TAKE_PROFIT_1` (config.py line 110). -/
def DEFAULT_TAKE_PROFIT_1 : ℚ := 1/25

/-- `config.DEFAULT_TAKE_PROFIT_2` (config.py line 111). -/
def DEFAULT_TAKE_PROFIT_2 : ℚ := 2/25

/-- The `self.trailing_stops[symbol]` dict (position_manager.py
lines 202-209). -/
structure TrailingStop where
  activationPrice : ℚ
  currentStop : ℚ
  highestPrice : ℚ
  lowestPrice : ℚ
  activated : Bool
  lastUpdate : ℚ
deriving DecidableEq, Repr

/-- `PositionManager._initialize_trailing_stop` (position_manager.py
lines 185-211). -/
def initializeTrailingStop (side : Side) (entryPrice currentPrice now : ℚ) :
    TrailingStop :=
  match side with
  | .Buy =>
    ⟨entryPrice * (1 + TRAILING_STOP_ACTIVATION),
     entryPrice * (1 - TRAILING_STOP_DISTANCE),
     currentPrice, currentPrice, false, now⟩
  | .Sell =>
    ⟨entryPrice * (1 - TRAILING_STOP_ACTIVATION),
     entryPrice * (1 + TRAILING_STOP_DISTANCE),
     currentPrice, currentPrice, false, now⟩

/-- The activation block of `_update_trailing_stop` (position_manager.py
lines 225-240): flips `activated` when price crosses the activation level
in the favorable direction. -/
def trailingActivate (side : Side) (currentPrice : ℚ) (t : TrailingStop) :
    TrailingStop :=
  if ¬t.activated then
    if side = .Buy ∧ t.activationPrice ≤ currentPrice then
      { t with activated := true }
    else if side = .Sell ∧ currentPrice ≤ t.activationPrice then
      { t with activated := true }
    else t
  else t

/-- `PositionManager._update_trailing_stop` (position_manager.py
lines 213-281), for a symbol already present in `trailing_stops`.  Returns
the new state and the `stop_updated` flag; when the flag is true the Python
code immediately sends a `send_position_update` push (lines 266-281). -/
def updateTrailingStop (side : Side) (currentPrice now : ℚ) (t : TrailingStop) :
    TrailingStop × Bool :=
  let t1 := trailingActivate side currentPrice t
  if t1.activated then
    match side with
    | .Buy =>
      if t1.highestPrice < currentPrice then
        let newStop := currentPrice * (1 - TRAILING_STOP_DISTANCE)
        if t1.currentStop < newStop then
          ({ t1 with highestPrice := currentPrice, currentStop := newStop, lastUpdate := now }, true)
        else ({ t1 with highestPrice := currentPrice }, false)
      else (t1, false)
    | .Sell =>
      if currentPrice < t1.lowestPrice then
        let newStop := currentPrice * (1 + TRAILING_STOP_DISTANCE)
        if newStop < t1.currentStop then
          ({ t1 with lowestPrice := currentPrice, currentStop := newStop, lastUpdate := now }, true)
        else ({ t1 with lowestPrice := currentPrice }, false)
      else (t1, false)
  else (t1, false)

/-- A whole sequence of `_update_trailing_stop` calls, fed successive
(price, time) observations. -/
def applyTrailingUpdates (side : Side) (updates : List (ℚ × ℚ))
    (t : TrailingStop) : TrailingStop :=
  updates.foldl (fun s u => (updateTrailingStop side u.1 u.2 s).1) t

/-- The `should_update` condition of `_send_position_update_if_needed`
(position_manager.py lines 420-433): pnl-band trigger or a trailing-stop
adjustment within the last 2 minutes. -/
def shouldSendUpdate (now pnlPercentage : ℚ) (trailing : Option TrailingStop) :
    Prop :=
  (5 ≤ |pnlPercentage| ∨ 10 ≤ |pnlPercentage| ∨ 20 ≤ |pnlPercentage|) ∨
    (match trailing with
     | some t => now - t.lastUpdate < 2
     | none => False)

instance (now pnlPercentage : ℚ) (trailing : Option TrailingStop) :
    Decidable (shouldSendUpdate now pnlPercentage trailing) := by
  unfold shouldSendUpdate
  cases trailing <;> exact inferInstance

/-- `PositionManager._send_position_update_if_needed` (position_manager.py
lines 407-464): throttled to one push per symbol per 5 minutes.  Returns
whether a push is sent and the new `_last_updates[symbol]` entry. -/
def sendPositionUpdateIfNeeded (now : ℚ) (lastUpdateTime : Option ℚ)
    (pnlPercentage : ℚ) (trailing : Option TrailingStop) : Bool × Option ℚ :=
  let throttledOut :=
    match lastUpdateTime with
    | some lu => decide (now - lu < 5)
    | none => false
  if throttledOut then (false, lastUpdateTime)
  else if shouldSendUpdate now pnlPercentage trailing then (true, some now)
  else (false, lastUpdateTime)

/-- One `update_position_management` pass restricted to the two call sites
of `telegram_bot.send_position_update` (trailing-stop step 1 and the
conditional step 4, position_manager.py lines 159-183): counts the position
status pushes emitted for the symbol in this pass. -/
def positionStatusPushes (side : Side) (currentPrice now pnlPercentage : ℚ)
    (t : TrailingStop) (lastUpdateTime : Option ℚ) :
    ℕ × TrailingStop × Option ℚ :=
  let r := updateTrailingStop side currentPrice now t
  let direct : ℕ := if r.2 then 1 else 0
  let s := sendPositionUpdateIfNeeded now lastUpdateTime pnlPercentage (some r.1)
  (direct + (if s.1 then 1 else 0), r.1, s.2)

/-- Key of the `_last_profit_alerts` dict: (symbol, target name, percentage)
as in `key = f"symbol_targetname_percentage"` (position_manager.py line 319). -/
abbrev ProfitAlertKey := String × String × ℕ

/-- Lookup in the `_last_profit_alerts` dict, modelled as an association
list (most recent entry first). -/
def lookupAlert : List (ProfitAlertKey × ℚ) → ProfitAlertKey → Option ℚ
  | [], _ => none
  | (k, t) :: rest, key => if k = key then some t else lookupAlert rest key

/-- `PositionManager._suggest_partial_profit` dedup logic (position_manager.py
lines 313-327): skip when the same key fired within the last 10 minutes,
else record `now` and emit. -/
def suggestProfitTarget (symbol targetName : String) (percentage : ℕ)
    (now : ℚ) (alerts : List (ProfitAlertKey × ℚ)) :
    Bool × List (ProfitAlertKey × ℚ) :=
  let key : ProfitAlertKey := (symbol, targetName, percentage)
  match lookupAlert alerts key with
  | some t => if now - t < 10 then (false, alerts) else (true, (key, now) :: alerts)
  | none => (true, (key, now) :: alerts)

/-- Whether `_suggest_partial_profit` would be skipped for `key` at `now`. -/
def profitAlertThrottled (alerts : List (ProfitAlertKey × ℚ))
    (key : ProfitAlertKey) (now : ℚ) : Bool :=
  match lookupAlert alerts key with
  | some t => decide (now - t < 10)
  | none => false

/-- `PositionManager._check_partial_profits` (position_manager.py
lines 283-311): both take-profit levels are tested independently each pass;
returns the list of emitted (target name, percentage) suggestions and the
updated alert map. -/
def checkProfitTargets (symbol : String) (side : Side)
    (entryPrice currentPrice now : ℚ) (alerts : List (ProfitAlertKey × ℚ)) :
    List (String × ℕ) × List (ProfitAlertKey × ℚ) :=
  match side with
  | .Buy =>
    let profit1Price := entryPrice * (1 + DEFAULT_TAKE_PROFIT_1)
    let profit2Price := entryPrice * (1 + DEFAULT_TAKE_PROFIT_2)
    let r1 :=
      if profit1Price ≤ currentPrice then
        let s := suggestProfitTarget symbol "1차 목표가" 50 now alerts
        ((if s.1 then [("1차 목표가", 50)] else []), s.2)
      else ([], alerts)
    let r2 :=
      if profit2Price ≤ currentPrice then
        let s := suggestProfitTarget symbol "2차 목표가" 100 now r1.2
        ((if s.1 then [("2차 목표가", 100)] else []), s.2)
      else ([], r1.2)
    (r1.1 ++ r2.1, r2.2)
  | .Sell =>
    let profit1Price := entryPrice * (1 - DEFAULT_TAKE_PROFIT_1)
    let profit2Price := entryPrice * (1 - DEFAULT_TAKE_PROFIT_2)
    let r1 :=
      if currentPrice ≤ profit1Price then
        let s := suggestProfitTarget symbol "1차 목표가" 50 now alerts
        ((if s.1 then [("1차 목표가", 50)] else []), s.2)
      else ([], alerts)
    let r2 :=
      if currentPrice ≤ profit2Price then
        let s := suggestProfitTarget symbol "2차 목표가" 100 now r1.2
        ((if s.1 then [("2차 목표가", 100)] else []), s.2)
      else ([], r1.2)
    (r1.1 ++ r2.1, r2.2)

/-- The `_price_history` dict: per-symbol list of recent prices. -/
abbrev PriceHistory := List (String × List ℚ)

/-- Dict lookup in `_price_history`. -/
def lookupHistory : PriceHistory → String → Option (List ℚ)
  | [], _ => none
  | (k, v) :: rest, s => if k = s then some v else lookupHistory rest s

/-- Dict assignment `_price_history[symbol] = prices`. -/
def setHistory : PriceHistory → String → List ℚ → PriceHistory
  | [], s, l => [(s, l)]
  | (k, v) :: rest, s, l =>
    if k = s then (s, l) :: rest else (k, v) :: setHistory rest s l

/-- The rapid-price-move portion of `PositionManager._check_risk_management`
(position_manager.py lines 370-387).  The state is `none` when the
`_price_history` attribute does not exist yet (first call ever); the pass
returns whether the rapid-move alert fires and the updated history. -/
def checkRapidMove (symbol : String) (currentPrice : ℚ)
    (st : Option PriceHistory) : Bool × PriceHistory :=
  let alertHist :=
    match st with
    | none => (false, ([] : PriceHistory))
    | some h =>
      match lookupHistory h symbol with
      | none => (false, h)
      | some prices =>
        let prevPrice :=
          match prices.getLast? with
          | some p => p
          | none => currentPrice
        let priceChange := |currentPrice - prevPrice| / prevPrice
        (decide (1/20 < priceChange), h)
  let cur := (lookupHistory alertHist.2 symbol).getD []
  let appended := cur ++ [currentPrice]
  let trimmed :=
    if 5 < appended.length then appended.drop (appended.length - 5) else appended
  (alertHist.1, setHistory alertHist.2 symbol trimmed)

/-- The spec's reading invariant: strength in [0,1] and a three-valued
signal. -/
def readingValid (r : IndicatorResult) : Prop :=
  0 ≤ r.strength ∧ r.strength ≤ 1 ∧
    (r.signal = .BUY ∨ r.signal = .SELL ∨ r.signal = .NEUTRAL)

/-! ### Helper lemmas -/

theorem min_one_nonneg {x : ℚ} (hx : 0 ≤ x) : 0 ≤ min 1 x :=
  le_min (by norm_num) hx

theorem min_one_le_one (x : ℚ) : min 1 x ≤ 1 :=
  min_le_left 1 x

/-! ### Claim theorems -/

/-- Claim C7: for every candle series, timeframe and indicator parameters,
every reading produced by any of the five indicators' `calculate` has
strength in [0,1] and signal in BUY/SELL/NEUTRAL. -/
theorem C7_reading_invariant (pr pv pb pm f sl sp : ℕ) (sd : ℚ) (mt tf : String)
    (cs : List Candle) (rsi macd sig hist ph up lo ma pma : ℚ) :
    readingValid (rsiCalculate pr tf cs rsi) ∧
    readingValid (macdCalculate f sl sp tf cs macd sig hist ph) ∧
    readingValid (bbCalculate pb sd tf cs up lo) ∧
    readingValid (volumeCalculate pv tf cs) ∧
    readingValid (maCalculate pm mt tf cs ma pma) := by
  refine ⟨?_, ?_, ?_, ?_, ?_⟩
  · simp only [rsiCalculate, readingValid]
    split_ifs with h1 h2 h3
    · exact ⟨le_refl 0, by norm_num, Or.inr (Or.inr rfl)⟩
    · exact ⟨min_one_nonneg (by linarith), min_one_le_one _, Or.inl rfl⟩
    · exact ⟨min_one_nonneg (by linarith), min_one_le_one _, Or.inr (Or.inl rfl)⟩
    · exact ⟨by norm_num, by norm_num, Or.inr (Or.inr rfl)⟩
  · simp only [macdCalculate, readingValid]
    split_ifs
    · exact ⟨le_refl 0, by norm_num, Or.inr (Or.inr rfl)⟩
    · exact ⟨by norm_num, by norm_num, Or.inl rfl⟩
    · exact ⟨by norm_num, by norm_num, Or.inr (Or.inl rfl)⟩
    · exact ⟨by norm_num, by norm_num, Or.inl rfl⟩
    · exact ⟨by norm_num, by norm_num, Or.inr (Or.inl rfl)⟩
    · exact ⟨by norm_num, by norm_num, Or.inr (Or.inr rfl)⟩
  · simp only [bbCalculate, readingValid]
    split_ifs with h1 h2 h3
    · exact ⟨le_refl 0, by norm_num, Or.inr (Or.inr rfl)⟩
    · exact ⟨min_one_nonneg (by linarith), min_one_le_one _, Or.inl rfl⟩
    · exact ⟨min_one_nonneg (by linarith), min_one_le_one _, Or.inr (Or.inl rfl)⟩
    · exact ⟨by norm_num, by norm_num, Or.inr (Or.inr rfl)⟩
  · simp only [volumeCalculate, readingValid]
    split_ifs with h1 h2 h3 h4
    · exact ⟨le_refl 0, by norm_num, Or.inr (Or.inr rfl)⟩
    · exact ⟨min_one_nonneg (by linarith [h2.1]), min_one_le_one _, Or.inl rfl⟩
    · exact ⟨min_one_nonneg (by linarith [h3.1]), min_one_le_one _, Or.inr (Or.inl rfl)⟩
    · exact ⟨by norm_num, by norm_num, Or.inr (Or.inr rfl)⟩
    · exact ⟨by norm_num, by norm_num, Or.inr (Or.inr rfl)⟩
  · simp only [maCalculate, readingValid]
    split_ifs
    · exact ⟨le_refl 0, by norm_num, Or.inr (Or.inr rfl)⟩
    · exact ⟨min_one_nonneg (by positivity), min_one_le_one _, Or.inl rfl⟩
    · exact ⟨min_one_nonneg (by positivity), min_one_le_one _, Or.inr (Or.inl rfl)⟩
    · exact ⟨by norm_num, by norm_num, Or.inr (Or.inr rfl)⟩

/-- Claim C5: on a candle series shorter than the indicator's minimum
lookback (for MACD, shorter than max(slow, signal)+10), every indicator's
`calculate` returns a NEUTRAL reading with strength 0 (the functions are
total, so no exception is raised). -/
theorem C5_short_series_neutral (pr pv pb pm f sl sp : ℕ) (sd : ℚ)
    (mt tf : String) (cs : List Candle) (rsi macd sig hist ph up lo ma pma : ℚ)
    (h1 : cs.length < pr) (h2 : cs.length < max sl sp + 10)
    (h3 : cs.length < pb) (h4 : cs.length < pv) (h5 : cs.length < pm) :
    ((rsiCalculate pr tf cs rsi).signal = .NEUTRAL ∧
      (rsiCalculate pr tf cs rsi).strength = 0) ∧
    ((macdCalculate f sl sp tf cs macd sig hist ph).signal = .NEUTRAL ∧
      (macdCalculate f sl sp tf cs macd sig hist ph).strength = 0) ∧
    ((bbCalculate pb sd tf cs up lo).signal = .NEUTRAL ∧
      (bbCalculate pb sd tf cs up lo).strength = 0) ∧
    ((volumeCalculate pv tf cs).signal = .NEUTRAL ∧
      (volumeCalculate pv tf cs).strength = 0) ∧
    ((maCalculate pm mt tf cs ma pma).signal = .NEUTRAL ∧
      (maCalculate pm mt tf cs ma pma).strength = 0) := by
  refine ⟨⟨?_, ?_⟩, ⟨?_, ?_⟩, ⟨?_, ?_⟩, ⟨?_, ?_⟩, ⟨?_, ?_⟩⟩ <;>
    simp only [rsiCalculate, macdCalculate, bbCalculate, volumeCalculate,
      maCalculate, if_pos h1, if_pos h2, if_pos h3, if_pos h4, if_pos h5]

/-- Witness for C5: the empty series is shorter than every default lookback;
each indicator returns NEUTRAL with zero strength on it. -/
theorem C5_witness :
    ((rsiCalculate 14 "15" [] 50).signal = .NEUTRAL ∧
      (rsiCalculate 14 "15" [] 50).strength = 0) ∧
    ((macdCalculate 12 26 9 "15" [] 0 0 0 0).signal = .NEUTRAL ∧
      (macdCalculate 12 26 9 "15" [] 0 0 0 0).strength = 0) ∧
    ((bbCalculate 20 2 "15" [] 0 0).signal = .NEUTRAL ∧
      (bbCalculate 20 2 "15" [] 0 0).strength = 0) ∧
    ((volumeCalculate 20 "15" []).signal = .NEUTRAL ∧
      (volumeCalculate 20 "15" []).strength = 0) ∧
    ((maCalculate 20 "SMA" "15" [] 0 0).signal = .NEUTRAL ∧
      (maCalculate 20 "SMA" "15" [] 0 0).strength = 0) :=
  C5_short_series_neutral 14 20 20 20 12 26 9 2 "SMA" "15" [] 50 0 0 0 0 0 0 0 0
    (by decide) (by decide) (by decide) (by decide) (by decide)

/-- Claim C8, counterexample: the claim says any oscillator value other than
those below 30 / above 70 yields NEUTRAL with strength 0.1, but at the
boundary value 30 the code (`current_rsi <= 30`) yields a BUY reading (with
strength 0), not NEUTRAL. -/
theorem C8_counterexample :
    (rsiCalculate 14 "15" (List.replicate 14 ⟨0, 1, 1, 1, 1, 1⟩) 30).signal = Signal.BUY ∧
    (rsiCalculate 14 "15" (List.replicate 14 ⟨0, 1, 1, 1, 1, 1⟩) 30).signal ≠ Signal.NEUTRAL := by
  norm_num [rsiCalculate]
  decide

/-- Claim C8 as amended: on a series long enough for the oscillator, a value
at or below 30 yields BUY with strength min(1, (30−v)/10); a value at or
above 70 yields SELL with strength min(1, (v−70)/10); a value strictly
between 30 and 70 yields NEUTRAL with strength 0.1; in particular value 25
yields BUY with strength 0.5. -/
theorem C8_rsi_classification (p : ℕ) (tf : String) (cs : List Candle) (v : ℚ)
    (hlen : p ≤ cs.length) :
    (v ≤ 30 → (rsiCalculate p tf cs v).signal = .BUY ∧
      (rsiCalculate p tf cs v).strength = min 1 ((30 - v) / 10)) ∧
    (70 ≤ v → (rsiCalculate p tf cs v).signal = .SELL ∧
      (rsiCalculate p tf cs v).strength = min 1 ((v - 70) / 10)) ∧
    (30 < v → v < 70 → (rsiCalculate p tf cs v).signal = .NEUTRAL ∧
      (rsiCalculate p tf cs v).strength = 1/10) ∧
    ((rsiCalculate p tf cs 25).signal = .BUY ∧
      (rsiCalculate p tf cs 25).strength = 1/2) := by
  have hn : ¬(cs.length < p) := not_lt.mpr hlen
  refine ⟨?_, ?_, ?_, ?_⟩
  · intro h
    simp only [rsiCalculate, if_neg hn, if_pos h]
    exact ⟨trivial, trivial⟩
  · intro h
    have hb : ¬(v ≤ 30) := by linarith
    simp only [rsiCalculate, if_neg hn, if_neg hb, if_pos h]
    exact ⟨trivial, trivial⟩
  · intro h1 h2
    have hb : ¬(v ≤ 30) := by linarith
    have hs : ¬(70 ≤ v) := by linarith
    simp only [rsiCalculate, if_neg hn, if_neg hb, if_neg hs]
    exact ⟨trivial, trivial⟩
  · have h25 : (25 : ℚ) ≤ 30 := by norm_num
    simp only [rsiCalculate, if_neg hn, if_pos h25]
    refine ⟨trivial, ?_⟩
    norm_num [min_def]

/-- Witness for C8: values 25, 75 and 50 over a 14-candle series land in
the three amended branches. -/
theorem C8_witness :
    ((rsiCalculate 14 "15" (List.replicate 14 ⟨0, 1, 1, 1, 1, 1⟩) 25).signal = .BUY ∧
      (rsiCalculate 14 "15" (List.replicate 14 ⟨0, 1, 1, 1, 1, 1⟩) 25).strength = min 1 ((30 - 25) / 10)) ∧
    ((rsiCalculate 14 "15" (List.replicate 14 ⟨0, 1, 1, 1, 1, 1⟩) 75).signal = .SELL ∧
      (rsiCalculate 14 "15" (List.replicate 14 ⟨0, 1, 1, 1, 1, 1⟩) 75).strength = min 1 ((75 - 70) / 10)) ∧
    ((rsiCalculate 14 "15" (List.replicate 14 ⟨0, 1, 1, 1, 1, 1⟩) 50).signal = .NEUTRAL ∧
      (rsiCalculate 14 "15" (List.replicate 14 ⟨0, 1, 1, 1, 1, 1⟩) 50).strength = 1/10) :=
  ⟨(C8_rsi_classification 14 "15" _ 25 (by simp)).1 (by norm_num),
   (C8_rsi_classification 14 "15" _ 75 (by simp)).2.1 (by norm_num),
   (C8_rsi_classification 14 "15" _ 50 (by simp)).2.2.1 (by norm_num) (by norm_num)⟩

/-- Claim C6: a trade direction is chosen only when the absolute difference
between summed BUY strengths and summed SELL strengths exceeds the noise
floor 1.0; with BUY sum 5.0 against SELL sum 4.3 no direction is chosen and
`generate_signal` yields no signal regardless of the computed score. -/
theorem C6_noise_floor (inds : List IndicatorResult) (symbol : String) (pb : ℚ) :
    (∀ d, determineDirection inds = some d →
      1 < |buyStrengthSum inds - sellStrengthSum inds|) ∧
    (buyStrengthSum inds = 5 → sellStrengthSum inds = 43/10 →
      determineDirection inds = none ∧ generateSignal symbol inds pb = none) := by
  constructor
  · intro d hd
    simp only [determineDirection] at hd
    split_ifs at hd with h1 h2
    · exact lt_of_lt_of_le h1 (le_abs_self _)
    · calc (1 : ℚ) < sellStrengthSum inds - buyStrengthSum inds := h2
        _ = -(buyStrengthSum inds - sellStrengthSum inds) := by ring
        _ ≤ |buyStrengthSum inds - sellStrengthSum inds| := neg_le_abs _
  · intro hb hs
    have hdir : determineDirection inds = none := by
      unfold determineDirection
      rw [hb, hs]
      norm_num
    refine ⟨hdir, ?_⟩
    by_cases hempty : inds = []
    · simp [generateSignal, hempty]
    · simp only [generateSignal, if_neg hempty]
      split_ifs with hscore
      · rfl
      · rw [hdir]

/-- Witness for C6: five BUY readings of strength 1 and SELL readings of
strengths 1,1,1,1,0.3 give BUY sum 5.0 and SELL sum 4.3; no direction and
no signal result. -/
theorem C6_witness :
    determineDirection
      [⟨"a", 0, .BUY, 1, "15", 0⟩, ⟨"b", 0, .BUY, 1, "15", 0⟩,
       ⟨"c", 0, .BUY, 1, "15", 0⟩, ⟨"d", 0, .BUY, 1, "15", 0⟩,
       ⟨"e", 0, .BUY, 1, "15", 0⟩, ⟨"f", 0, .SELL, 1, "15", 0⟩,
       ⟨"g", 0, .SELL, 1, "15", 0⟩, ⟨"h", 0, .SELL, 1, "15", 0⟩,
       ⟨"i", 0, .SELL, 1, "15", 0⟩, ⟨"j", 0, .SELL, 3/10, "15", 0⟩] = none ∧
    generateSignal "SOLUSDT"
      [⟨"a", 0, .BUY, 1, "15", 0⟩, ⟨"b", 0, .BUY, 1, "15", 0⟩,
       ⟨"c", 0, .BUY, 1, "15", 0⟩, ⟨"d", 0, .BUY, 1, "15", 0⟩,
       ⟨"e", 0, .BUY, 1, "15", 0⟩, ⟨"f", 0, .SELL, 1, "15", 0⟩,
       ⟨"g", 0, .SELL, 1, "15", 0⟩, ⟨"h", 0, .SELL, 1, "15", 0⟩,
       ⟨"i", 0, .SELL, 1, "15", 0⟩, ⟨"j", 0, .SELL, 3/10, "15", 0⟩] 0 = none :=
  (C6_noise_floor _ "SOLUSDT" 0).2
    (by simp [buyStrengthSum, List.filter]; norm_num)
    (by simp [sellStrengthSum, List.filter]; norm_num)


/-- Claim C4: with a nonempty reading list and a permitted direction,
`generate_signal` produces a signal exactly when the final score reaches the
configured minimum: at score = MIN_SIGNAL_SCORE a signal is produced, at
score = MIN_SIGNAL_SCORE − 1 the result is `none` (a null result, not an
error). -/
theorem C4_threshold_boundary (symbol : String) (inds : List IndicatorResult)
    (pb : ℚ) (d : Direction) :
    (finalScoreOf symbol inds pb = MIN_SIGNAL_SCORE →
      determineDirection inds = some d →
      generateSignal symbol inds pb = some ⟨symbol, d, MIN_SIGNAL_SCORE⟩) ∧
    (finalScoreOf symbol inds pb = MIN_SIGNAL_SCORE - 1 →
      generateSignal symbol inds pb = none) := by
  constructor
  · intro hs hd
    have hne : inds ≠ [] := by
      intro he
      rw [he] at hd
      simp [determineDirection, buyStrengthSum, sellStrengthSum] at hd
      norm_num at hd
      exact Option.noConfusion hd
    simp only [generateSignal, if_neg hne, hs, hd]
    norm_num [MIN_SIGNAL_SCORE]
  · intro hs
    by_cases hne : inds = []
    · simp [generateSignal, hne]
    · simp only [generateSignal, if_neg hne, hs]
      norm_num [MIN_SIGNAL_SCORE]

/-- Witness for C4: two 15-minute BUY readings of strength 0.70 give final
score exactly 70 and a LONG signal; strength 0.69 gives 69 and no signal. -/
theorem C4_witness :
    generateSignal "ETHUSDT"
      [⟨"x", 0, .BUY, 7/10, "15", 0⟩, ⟨"y", 0, .BUY, 7/10, "15", 0⟩] 0 =
      some ⟨"ETHUSDT", .LONG, MIN_SIGNAL_SCORE⟩ ∧
    generateSignal "ETHUSDT"
      [⟨"x", 0, .BUY, 69/100, "15", 0⟩, ⟨"y", 0, .BUY, 69/100, "15", 0⟩] 0 = none :=
  ⟨(C4_threshold_boundary "ETHUSDT" _ 0 .LONG).1
      (by simp [finalScoreOf, calculateBaseScore, baseScoreAcc, timeframeWeight,
            getBtcCorrelationFactor, pyInt, MIN_SIGNAL_SCORE, List.foldl]; norm_num)
      (by simp [determineDirection, buyStrengthSum, sellStrengthSum, List.filter]; norm_num),
   (C4_threshold_boundary "ETHUSDT" _ 0 .LONG).2
      (by simp [finalScoreOf, calculateBaseScore, baseScoreAcc, timeframeWeight,
            getBtcCorrelationFactor, pyInt, MIN_SIGNAL_SCORE, List.foldl]; norm_num)⟩

/-- Claim C1 (code bug): `generate_signal` never applies the BTC dominance
factor.  `_get_btc_correlation_factor` is a TODO stub returning 1.0, even
though `IndicatorEngine.calculate_btc_dominance_factor` would return the
strong-bull weight 2.0 for BTC 15-minute readings of average directional
strength 0.65.  At the failing input below the altcoin signal keeps score
75, where the claimed doubling would clamp (75+0)×2 to 100. -/
theorem C1_btc_factor_stub_divergence :
    getBtcCorrelationFactor = 1 ∧
    calculateBtcDominanceFactor
      (some [⟨"btc1", 0, .BUY, 13/20, "15", 0⟩, ⟨"btc2", 0, .BUY, 13/20, "15", 0⟩]) =
      BTC_DOMINANCE_STRONG_BULL ∧
    generateSignal "ETHUSDT"
      [⟨"x", 0, .BUY, 3/4, "15", 0⟩, ⟨"y", 0, .BUY, 3/4, "15", 0⟩] 0 =
      some ⟨"ETHUSDT", .LONG, 75⟩ ∧
    max 0 (min 100 (pyInt
      ((calculateBaseScore [⟨"x", 0, .BUY, 3/4, "15", 0⟩, ⟨"y", 0, .BUY, 3/4, "15", 0⟩] + 0) *
        BTC_DOMINANCE_STRONG_BULL))) = 100 := by
  refine ⟨rfl, ?_, ?_, ?_⟩
  · simp [calculateBtcDominanceFactor, List.foldl]; norm_num
  · simp [generateSignal, finalScoreOf, calculateBaseScore, baseScoreAcc,
      timeframeWeight, getBtcCorrelationFactor, pyInt, MIN_SIGNAL_SCORE,
      determineDirection, buyStrengthSum, sellStrengthSum, List.filter, List.foldl]
    norm_num
  · simp [calculateBaseScore, baseScoreAcc, timeframeWeight, pyInt,
      BTC_DOMINANCE_STRONG_BULL, List.foldl]
    norm_num


/-- The activation block never changes `current_stop`. -/
theorem trailingActivate_currentStop (side : Side) (p : ℚ) (t : TrailingStop) :
    (trailingActivate side p t).currentStop = t.currentStop := by
  unfold trailingActivate
  split_ifs <;> rfl

/-- One `_update_trailing_stop` call never lowers the stop of a long. -/
theorem updateTrailingStop_mono_buy (p now : ℚ) (t : TrailingStop) :
    t.currentStop ≤ (updateTrailingStop .Buy p now t).1.currentStop := by
  have hact := trailingActivate_currentStop .Buy p t
  simp only [updateTrailingStop]
  split_ifs with h1 h2 h3 <;> dsimp only <;> linarith

/-- One `_update_trailing_stop` call never raises the stop of a short. -/
theorem updateTrailingStop_anti_sell (p now : ℚ) (t : TrailingStop) :
    (updateTrailingStop .Sell p now t).1.currentStop ≤ t.currentStop := by
  have hact := trailingActivate_currentStop .Sell p t
  simp only [updateTrailingStop]
  split_ifs with h1 h2 h3 <;> dsimp only <;> linarith

/-- Monotonicity over an arbitrary update sequence, long side. -/
theorem applyTrailingUpdates_mono_buy (updates : List (ℚ × ℚ)) :
    ∀ t : TrailingStop,
      t.currentStop ≤ (applyTrailingUpdates .Buy updates t).currentStop := by
  induction updates with
  | nil => intro t; exact le_refl _
  | cons u us ih =>
    intro t
    have hstep := updateTrailingStop_mono_buy u.1 u.2 t
    have htail := ih (updateTrailingStop .Buy u.1 u.2 t).1
    simp only [applyTrailingUpdates, List.foldl_cons] at htail ⊢
    exact le_trans hstep htail

/-- Monotonicity over an arbitrary update sequence, short side. -/
theorem applyTrailingUpdates_anti_sell (updates : List (ℚ × ℚ)) :
    ∀ t : TrailingStop,
      (applyTrailingUpdates .Sell updates t).currentStop ≤ t.currentStop := by
  induction updates with
  | nil => intro t; exact le_refl _
  | cons u us ih =>
    intro t
    have hstep := updateTrailingStop_anti_sell u.1 u.2 t
    have htail := ih (updateTrailingStop .Sell u.1 u.2 t).1
    simp only [applyTrailingUpdates, List.foldl_cons] at htail ⊢
    exact le_trans htail hstep

/-- Claim C2: once a trailing stop is activated, across every sequence of
`_update_trailing_stop` calls `current_stop` never decreases for a Buy
(long) position and never increases for a Sell (short) position. -/
theorem C2_trailing_stop_monotonic (updates : List (ℚ × ℚ)) (t : TrailingStop)
    (hact : t.activated = true) :
    t.currentStop ≤ (applyTrailingUpdates .Buy updates t).currentStop ∧
    (applyTrailingUpdates .Sell updates t).currentStop ≤ t.currentStop :=
  ⟨applyTrailingUpdates_mono_buy updates t, applyTrailingUpdates_anti_sell updates t⟩

/-- Witness for C2: an activated long state fed rising, falling and rising
prices keeps its stop monotone. -/
theorem C2_witness :
    (⟨102, 197/2, 100, 100, true, 0⟩ : TrailingStop).currentStop ≤
      (applyTrailingUpdates .Buy [(105, 1), (103, 2), (110, 3)]
        ⟨102, 197/2, 100, 100, true, 0⟩).currentStop ∧
    (applyTrailingUpdates .Sell [(105, 1), (103, 2), (110, 3)]
      ⟨102, 197/2, 100, 100, true, 0⟩).currentStop ≤
      (⟨102, 197/2, 100, 100, true, 0⟩ : TrailingStop).currentStop :=
  C2_trailing_stop_monotonic [(105, 1), (103, 2), (110, 3)]
    ⟨102, 197/2, 100, 100, true, 0⟩ rfl


/-- Claim C3, counterexample: a single management pass in which the trailing
stop adjusts emits two position status pushes at the same instant — the
unthrottled direct push from `_update_trailing_stop` plus the conditional
push — so "at most one push per symbol per 5 minutes" fails. -/
theorem C3_counterexample :
    1 < (positionStatusPushes .Buy 105 0 0 ⟨102, 197/2, 100, 100, true, -10⟩ none).1 := by
  norm_num [positionStatusPushes, updateTrailingStop, trailingActivate,
    sendPositionUpdateIfNeeded, shouldSendUpdate, TRAILING_STOP_DISTANCE]

/-- A conditional push records its own send time. -/
theorem sendPositionUpdate_sent_time (now : ℚ) (lu : Option ℚ) (pnl : ℚ)
    (tr : Option TrailingStop)
    (h : (sendPositionUpdateIfNeeded now lu pnl tr).1 = true) :
    (sendPositionUpdateIfNeeded now lu pnl tr).2 = some now := by
  unfold sendPositionUpdateIfNeeded at h ⊢
  cases lu with
  | none => by_cases hs : shouldSendUpdate now pnl tr <;> simp_all
  | some lu0 =>
    by_cases hc : now - lu0 < 5 <;> by_cases hs : shouldSendUpdate now pnl tr <;>
      simp_all <;> rw [if_neg (not_lt.mpr hc)]

/-- Claim C3 as amended: a push triggered by a trailing-stop adjustment is
emitted immediately and bypasses the 5-minute throttle; only the
conditional status-push path (`_send_position_update_if_needed`) is
throttled — once it pushes at time `now`, it pushes nothing for the same
symbol within the following 5 minutes. -/
theorem C3_throttling_amended (side : Side) (price now pnl now2 pnl2 : ℚ)
    (t : TrailingStop) (lu lu1 : Option ℚ) (tr tr2 : Option TrailingStop) :
    ((updateTrailingStop side price now t).2 = true →
      1 ≤ (positionStatusPushes side price now pnl t lu).1) ∧
    (sendPositionUpdateIfNeeded now lu pnl tr = (true, lu1) → now2 - now < 5 →
      (sendPositionUpdateIfNeeded now2 lu1 pnl2 tr2).1 = false) := by
  constructor
  · intro h
    simp [positionStatusPushes, h]
  · intro h hlt
    have hfst : (sendPositionUpdateIfNeeded now lu pnl tr).1 = true := by rw [h]
    have hsnd := sendPositionUpdate_sent_time now lu pnl tr hfst
    rw [h] at hsnd
    subst hsnd
    unfold sendPositionUpdateIfNeeded
    simp only [decide_eq_true_eq]
    rw [if_pos]
    exact hlt

/-- Witness for C3's amended theorem: a concrete adjusting pass pushes at
least once, and a conditional push at time 0 suppresses the one at time 1. -/
theorem C3_witness :
    1 ≤ (positionStatusPushes .Buy 105 0 0 ⟨102, 197/2, 100, 100, true, -10⟩ none).1 ∧
    (sendPositionUpdateIfNeeded 1 (some 0) 7 none).1 = false :=
  ⟨((C3_throttling_amended .Buy 105 0 0 1 7 ⟨102, 197/2, 100, 100, true, -10⟩
      none (some 0) none none).1
      (by norm_num [updateTrailingStop, trailingActivate, TRAILING_STOP_DISTANCE])),
   ((C3_throttling_amended .Buy 105 0 5 1 7 ⟨102, 197/2, 100, 100, true, -10⟩
      none (some 0) none none).2
      (by norm_num [sendPositionUpdateIfNeeded, shouldSendUpdate]) (by norm_num))⟩


/-- Emission of one profit suggestion depends only on its own key. -/
theorem suggestProfitTarget_fst (symbol targetName : String) (percentage : ℕ)
    (now : ℚ) (alerts : List (ProfitAlertKey × ℚ)) :
    (suggestProfitTarget symbol targetName percentage now alerts).1 =
      !(profitAlertThrottled alerts (symbol, targetName, percentage) now) := by
  unfold suggestProfitTarget profitAlertThrottled
  cases h : lookupAlert alerts (symbol, targetName, percentage) with
  | none => simp [h]
  | some t0 => by_cases hc : now - t0 < 10 <;> simp [h, hc]

/-- The alert-map update of one profit suggestion. -/
theorem suggestProfitTarget_snd (symbol targetName : String) (percentage : ℕ)
    (now : ℚ) (alerts : List (ProfitAlertKey × ℚ)) :
    (suggestProfitTarget symbol targetName percentage now alerts).2 =
      if profitAlertThrottled alerts (symbol, targetName, percentage) now then alerts
      else ((symbol, targetName, percentage), now) :: alerts := by
  unfold suggestProfitTarget profitAlertThrottled
  cases h : lookupAlert alerts (symbol, targetName, percentage) with
  | none => simp [h]
  | some t0 => by_cases hc : now - t0 < 10 <;> simp [h, hc]

/-- A lookup skips an entry with a different key. -/
theorem lookupAlert_cons_ne (k key : ProfitAlertKey) (t : ℚ)
    (a : List (ProfitAlertKey × ℚ)) (h : k ≠ key) :
    lookupAlert ((k, t) :: a) key = lookupAlert a key := by
  simp [lookupAlert, h]

/-- Throttling of a key is unaffected by recording a different key. -/
theorem profitAlertThrottled_cons_ne (k key : ProfitAlertKey) (t now : ℚ)
    (a : List (ProfitAlertKey × ℚ)) (h : k ≠ key) :
    profitAlertThrottled ((k, t) :: a) key now = profitAlertThrottled a key now := by
  unfold profitAlertThrottled
  rw [lookupAlert_cons_ne k key t a h]

/-- Claim C9: once the price reaches the second take-profit level, one
`_check_partial_profits` pass issues both the 50% first-target and the 100%
second-target suggestions, each gated only by its own
(symbol, target, percentage) 10-minute dedup entry; symmetric for shorts. -/
theorem C9_both_targets (symbol : String) (entry current now : ℚ)
    (alerts : List (ProfitAlertKey × ℚ)) (hentry : 0 < entry) :
    (entry * (1 + DEFAULT_TAKE_PROFIT_2) ≤ current →
      (checkProfitTargets symbol .Buy entry current now alerts).1 =
        (if profitAlertThrottled alerts (symbol, "1차 목표가", 50) now then []
          else [("1차 목표가", 50)]) ++
        (if profitAlertThrottled alerts (symbol, "2차 목표가", 100) now then []
          else [("2차 목표가", 100)])) ∧
    (current ≤ entry * (1 - DEFAULT_TAKE_PROFIT_2) →
      (checkProfitTargets symbol .Sell entry current now alerts).1 =
        (if profitAlertThrottled alerts (symbol, "1차 목표가", 50) now then []
          else [("1차 목표가", 50)]) ++
        (if profitAlertThrottled alerts (symbol, "2차 목표가", 100) now then []
          else [("2차 목표가", 100)])) := by
  have hkey : ((symbol, "1차 목표가", 50) : ProfitAlertKey) ≠ (symbol, "2차 목표가", 100) := by
    simp [Prod.ext_iff]
  constructor
  · intro h2
    have h1 : entry * (1 + DEFAULT_TAKE_PROFIT_1) ≤ current := by
      have hm : entry * (1 + DEFAULT_TAKE_PROFIT_1) ≤ entry * (1 + DEFAULT_TAKE_PROFIT_2) := by
        apply mul_le_mul_of_nonneg_left _ (le_of_lt hentry)
        norm_num [DEFAULT_TAKE_PROFIT_1, DEFAULT_TAKE_PROFIT_2]
      linarith
    simp only [checkProfitTargets, if_pos h1, if_pos h2,
      suggestProfitTarget_fst, suggestProfitTarget_snd]
    by_cases hb1 : profitAlertThrottled alerts (symbol, "1차 목표가", 50) now <;>
      by_cases hb2 : profitAlertThrottled alerts (symbol, "2차 목표가", 100) now <;>
        simp [hb1, hb2, profitAlertThrottled_cons_ne _ _ _ _ _ hkey]
  · intro h2
    have h1 : current ≤ entry * (1 - DEFAULT_TAKE_PROFIT_1) := by
      have hm : entry * (1 - DEFAULT_TAKE_PROFIT_2) ≤ entry * (1 - DEFAULT_TAKE_PROFIT_1) := by
        apply mul_le_mul_of_nonneg_left _ (le_of_lt hentry)
        norm_num [DEFAULT_TAKE_PROFIT_1, DEFAULT_TAKE_PROFIT_2]
      linarith
    simp only [checkProfitTargets, if_pos h1, if_pos h2,
      suggestProfitTarget_fst, suggestProfitTarget_snd]
    by_cases hb1 : profitAlertThrottled alerts (symbol, "1차 목표가", 50) now <;>
      by_cases hb2 : profitAlertThrottled alerts (symbol, "2차 목표가", 100) now <;>
        simp [hb1, hb2, profitAlertThrottled_cons_ne _ _ _ _ _ hkey]

/-- Witness for C9: a long at entry 100 with price 108 (≥ the 8% second
target) and an empty alert map gets both suggestions in one pass; a short
at entry 100 with price 92 symmetrically. -/
theorem C9_witness :
    (checkProfitTargets "XRPUSDT" .Buy 100 108 0 []).1 =
      [("1차 목표가", 50), ("2차 목표가", 100)] ∧
    (checkProfitTargets "XRPUSDT" .Sell 100 92 0 []).1 =
      [("1차 목표가", 50), ("2차 목표가", 100)] := by
  constructor
  · have h := (C9_both_targets "XRPUSDT" 100 108 0 [] (by norm_num)).1
      (by norm_num [DEFAULT_TAKE_PROFIT_2])
    rw [h]
    norm_num [profitAlertThrottled, lookupAlert]
  · have h := (C9_both_targets "XRPUSDT" 100 92 0 [] (by norm_num)).2
      (by norm_num [DEFAULT_TAKE_PROFIT_2])
    rw [h]
    norm_num [profitAlertThrottled, lookupAlert]


/-- Setting a symbol's history makes it the symbol's lookup result. -/
theorem lookupHistory_setHistory (h : PriceHistory) (s : String) (l : List ℚ) :
    lookupHistory (setHistory h s l) s = some l := by
  induction h with
  | nil => simp [setHistory, lookupHistory]
  | cons kv rest ih =>
    obtain ⟨k, v⟩ := kv
    by_cases hk : k = s
    · simp [setHistory, lookupHistory, hk]
    · simp [setHistory, lookupHistory, hk, ih]

/-- The `[-5:]` trim keeps at most 5 entries. -/
theorem trimmedLength_le (l : List ℚ) :
    (if 5 < l.length then l.drop (l.length - 5) else l).length ≤ 5 := by
  split_ifs with h
  · simp only [List.length_drop]
    omega
  · omega

/-- Claim C10: the rapid-price-move alert never fires on the first risk pass
for a symbol (no `_price_history` attribute, or no entry for the symbol);
when it fires, a previously recorded price exists and the current price
deviates from the most recent one by more than 5% of it; and the per-symbol
history after a pass holds at most 5 observations. -/
theorem C10_rapid_move_alert (symbol : String) (p : ℚ) (st : Option PriceHistory)
    (h : PriceHistory) :
    (checkRapidMove symbol p none).1 = false ∧
    (lookupHistory h symbol = none → (checkRapidMove symbol p (some h)).1 = false) ∧
    ((checkRapidMove symbol p st).1 = true →
      ∃ hh prices prev, st = some hh ∧ lookupHistory hh symbol = some prices ∧
        prices.getLast? = some prev ∧ 1/20 < |p - prev| / prev) ∧
    (∃ l, lookupHistory (checkRapidMove symbol p st).2 symbol = some l ∧
      l.length ≤ 5) := by
  refine ⟨?_, ?_, ?_, ?_⟩
  · simp [checkRapidMove]
  · intro hl
    simp [checkRapidMove, hl]
  · intro ha
    cases st with
    | none => simp [checkRapidMove] at ha
    | some hh =>
      cases hlk : lookupHistory hh symbol with
      | none => simp [checkRapidMove, hlk] at ha
      | some prices =>
        cases hgl : prices.getLast? with
        | none =>
          simp only [checkRapidMove, hlk, hgl] at ha
          norm_num at ha
        | some prev =>
          simp only [checkRapidMove, hlk, hgl] at ha
          exact ⟨hh, prices, prev, rfl, hlk, hgl, of_decide_eq_true ha⟩
  · simp only [checkRapidMove]
    exact ⟨_, lookupHistory_setHistory _ _ _, trimmedLength_le _⟩

/-- Witness for C10: a recorded price 100 followed by price 106 (a 6% move)
fires the alert; a first pass does not; the stored history stays within 5
entries. -/
theorem C10_witness :
    (checkRapidMove "BTCUSDT" 106 none).1 = false ∧
    (checkRapidMove "BTCUSDT" 106 (some [])).1 = false ∧
    (∃ hh prices prev,
      (some [("BTCUSDT", [100])] : Option PriceHistory) = some hh ∧
      lookupHistory hh "BTCUSDT" = some prices ∧ prices.getLast? = some prev ∧
      1/20 < |(106 : ℚ) - prev| / prev) ∧
    (∃ l, lookupHistory
        (checkRapidMove "BTCUSDT" 106 (some [("BTCUSDT", [100])])).2 "BTCUSDT" =
        some l ∧ l.length ≤ 5) :=
  ⟨(C10_rapid_move_alert "BTCUSDT" 106 none []).1,
   (C10_rapid_move_alert "BTCUSDT" 106 none []).2.1 rfl,
   (C10_rapid_move_alert "BTCUSDT" 106 (some [("BTCUSDT", [100])]) []).2.2.1
     (by simp [checkRapidMove, lookupHistory]; norm_num),
   (C10_rapid_move_alert "BTCUSDT" 106 (some [("BTCUSDT", [100])]) []).2.2.2⟩

end AITradingBot
